import Mathlib

/-!
Shallow embedding of the debug-cdn RTSP→FLV gateway (repository sources under
`src/src/service`: `flv.py`, `rtsp.py`, `sdp.py`, `url.py`, `service.py`).
Bytes are modelled as `List Nat` (each element a byte value), Python machine
integers as `Nat`/`Int`, Python float arithmetic (only in `Timestamp`) as exact
rationals, and Python exceptions as `Except PyErr`.
-/

/-- Python exceptions raised by the embedded code, carrying their payloads. -/
inductive PyErr where
  /-- TypeError from calling a function with the wrong number of positional
  arguments; carries the function name. -/
  | typeErr (fn : String)
  /-- AttributeError from a failed attribute lookup; carries class and name. -/
  | attributeErr (cls attr : String)
  /-- IndexError from an out-of-range list subscript. -/
  | indexErr
  /-- KeyError from a missing dict key. -/
  | keyErr (k : String)
  /-- ValueError (e.g. `bytes.fromhex` on an odd-length string). -/
  | valueErr (msg : String)
  /-- url.py:22 UrlException `invalid url {url}`. -/
  | invalidUrl (url : String)
  /-- rtsp.py:277 RtspException `Credentials {credentials} Not Accepted`. -/
  | credentialsNotAccepted (credentials : List String)
deriving DecidableEq, Repr

deriving instance DecidableEq for Except

/-- Rendering of an exception for the HTTP `Warning:` header in flv.py:155. -/
def PyErr.message : PyErr → String
  | .typeErr fn => fn ++ "() missing required positional argument"
  | .attributeErr cls attr => cls ++ " object has no attribute " ++ attr
  | .indexErr => "list index out of range"
  | .keyErr k => k
  | .valueErr m => m
  | .invalidUrl u => "invalid url " ++ u
  | .credentialsNotAccepted _ => "Credentials Not Accepted"

/-- Python list subscript `l[i]` for a nonnegative index: raises IndexError
when out of range. -/
def pyIdx {α : Type} (l : List α) (i : Nat) : Except PyErr α :=
  match l.get? i with
  | some x => .ok x
  | none => .error .indexErr

/-- Python slice `l[a:b]` for nonnegative bounds. -/
def pySlice (l : List Nat) (a b : Nat) : List Nat := (l.take b).drop a

/-- Byte access `l[i]` where the caller has already ensured the index is in
range (the framer's length guard); out-of-range reads default to 0. -/
def pyAt (l : List Nat) (i : Nat) : Nat := l.getD i 0

/-- Python `int.to_bytes(k, 'big')`: big-endian byte list of length `k`.
Python raises OverflowError when `n ≥ 256 ^ k`; theorems that depend on the
emitted bytes carry the in-range bound as a hypothesis. -/
def toBytesBE : Nat → Nat → List Nat
  | _, 0 => []
  | n, k + 1 => toBytesBE (n / 256) k ++ [n % 256]

/-- Python `int.from_bytes(bs, 'big')`. -/
def fromBytesBE (bs : List Nat) : Nat := bs.foldl (fun a b => a * 256 + b) 0

/-- Little-endian byte list of length `k` (used by the MD5 embedding). -/
def toBytesLE : Nat → Nat → List Nat
  | _, 0 => []
  | n, k + 1 => n % 256 :: toBytesLE (n / 256) k

/-- Whether `needle` occurs as a contiguous run inside `hay`
(Python `needle in hay` on strings). -/
def hasByteRun (needle hay : List Nat) : Bool :=
  match hay with
  | [] => needle.isEmpty
  | _ :: t => needle.isPrefixOf hay || hasByteRun needle t

/-- Python `bytearray.find(needle)`: index of the first occurrence, as an
Option (Python returns -1 when absent). -/
def pyFind (needle hay : List Nat) : Option Nat :=
  match hay with
  | [] => if needle.isEmpty then some 0 else none
  | _ :: t =>
    if needle.isPrefixOf hay then some 0
    else (pyFind needle t).map (· + 1)

/-- Python substring test `needle in hay` on strings. -/
def hasSubstring (needle hay : String) : Bool :=
  let rec go : List Char → Bool
    | [] => needle.toList.isEmpty
    | l@(_ :: t) => needle.toList.isPrefixOf l || go t
  go hay.toList

/-! ## flv.py: FLV tag encoder (flv.py:11-108)

Each Python tag class builds a byte string `_data`; the embedding gives one
function per class producing that byte list. -/

/-- flv.py:11 `TagType.AUDIO`. -/
def TagType_AUDIO : Nat := 8

/-- flv.py:11 `TagType.VIDEO`. -/
def TagType_VIDEO : Nat := 9

/-- flv.py:42-48 `FlvTag.__init__`: tag type byte, 24-bit payload length,
24-bit low timestamp, 8-bit high timestamp, 24-bit zero stream id. -/
def FlvTag (tag_type length timestamp : Nat) : List Nat :=
  toBytesBE tag_type 1 ++ toBytesBE length 3 ++
  toBytesBE (timestamp &&& 0xffffff) 3 ++ toBytesBE (timestamp >>> 24) 1 ++
  [0, 0, 0]

/-- flv.py:57-61 `VideoTag.__init__`: FlvTag with VIDEO type, then one byte
`(frame_type << 4) | 7`. -/
def VideoTag (frame_type length timestamp : Nat) : List Nat :=
  FlvTag TagType_VIDEO length timestamp ++ toBytesBE ((frame_type <<< 4) ||| 7) 1

/-- flv.py:64-70 `AvcSequenceHeader.__init__`: key video tag, declared length
`len(data) + 5`, timestamp 0, AVC packet type 0, zero composition time. -/
def AvcSequenceHeader (data : List Nat) : List Nat :=
  VideoTag 1 (data.length + 5) 0 ++ toBytesBE 0 1 ++ [0, 0, 0] ++ data

/-- flv.py:73-79 `AvcNalUnit.__init__`: video tag with declared length
`len(data) + 5`, AVC packet type 1, zero composition time. -/
def AvcNalUnit (frame_type : Nat) (data : List Nat) (timestamp : Nat) : List Nat :=
  VideoTag frame_type (data.length + 5) timestamp ++ toBytesBE 1 1 ++ [0, 0, 0] ++ data

/-- flv.py:82-94 `AudioData.__bytes__`: format, rate, size, type packed into
one byte. -/
def AudioDataByte (f r s t : Nat) : Nat :=
  ((f &&& 15) <<< 4) ||| ((r &&& 3) <<< 2) ||| ((s &&& 1) <<< 1) ||| (t &&& 1)

/-- flv.py:136 the sink's `_audio_data`: AAC, 44 kHz, 16-bit, stereo. -/
def audio_data_default : Nat := AudioDataByte 10 3 1 1

/-- flv.py:97-100 `AudioTag.__init__`: FlvTag with AUDIO type, declared length
`len(sample) + 2`, then the AudioData byte, the AAC packet type byte, and the
sample. -/
def AudioTag (sample : List Nat) (timestamp dataByte packet_type : Nat) : List Nat :=
  FlvTag TagType_AUDIO (sample.length + 2) timestamp ++ [dataByte] ++
  toBytesBE packet_type 1 ++ sample

/-- flv.py:103-108 `FlvBody.__init__`: the tag bytes followed by
`len(tag).to_bytes(4, 'big')`. -/
def FlvBody (tag : List Nat) : List Nat := tag ++ toBytesBE tag.length 4

/-! ## flv.py: Timestamp normalizer (flv.py:111-126)

Python float arithmetic is modelled by exact rationals; the counterexample
run below produces the same integer outputs under IEEE double arithmetic. -/

/-- State of flv.py:111-115 `Timestamp`: base RTP timestamp (None until the
first call), fractional residue `_aux`, and `_clock_rate = frequency / 1000`. -/
structure Timestamp where
  value : Option Int
  aux : Rat
  clock_rate : Rat
deriving DecidableEq, Repr

/-- flv.py:112-115 `Timestamp.__init__`. -/
def Timestamp.init (frequency : Rat) : Timestamp := ⟨none, 0, frequency / 1000⟩

/-- Python `int()` on a float: truncation toward zero. -/
def pyTrunc (x : Rat) : Int := if 0 ≤ x then ⌊x⌋ else -⌊-x⌋

/-- flv.py:117-126 `Timestamp.get`: capture the base on the first call, return
the truncated tick count, accumulate the fraction, and carry one millisecond
when the residue exceeds 1. -/
def Timestamp.get (t : Timestamp) (timestamp : Int) : Int × Timestamp :=
  let value : Int := t.value.getD timestamp
  let ts : Rat := ((timestamp : Rat) - (value : Rat)) / t.clock_rate
  let rc : Int := pyTrunc ts
  let aux : Rat := t.aux + (ts - (rc : Rat))
  if 1 < aux then (rc + 1, ⟨some value, aux - 1, t.clock_rate⟩)
  else (rc, ⟨some value, aux, t.clock_rate⟩)

/-- Feed a sequence of RTP timestamps through one normalizer, collecting the
returned millisecond values. -/
def Timestamp.run (t : Timestamp) : List Int → List Int
  | [] => []
  | x :: xs =>
    let p := t.get x
    p.1 :: Timestamp.run p.2 xs

/-! ## Python string helpers shared by url.py / rtsp.py / sdp.py embeddings -/

/-- Worker for `pySplit`: structural on a fuel that the caller sets to the
input length plus one, which always suffices because each step consumes at
least one character. -/
def splitOnGo (sep : List Char) : Nat → List Char → List Char → List (List Char)
  | 0, l, acc => [acc.reverse ++ l]
  | _ + 1, [], acc => [acc.reverse]
  | n + 1, l@(c :: t), acc =>
    if sep.isPrefixOf l then acc.reverse :: splitOnGo sep n (l.drop sep.length) []
    else splitOnGo sep n t (c :: acc)

/-- Python `s.split(sep)` for a nonempty separator (keeps empty pieces). -/
def pySplit (s sep : String) : List String :=
  if sep = "" then [s]
  else (splitOnGo sep.toList (s.toList.length + 1) s.toList []).map String.mk

/-- Python `s.split()` (no argument): split on whitespace runs, dropping
empty pieces; the header lines involved only contain spaces. -/
def pySplitWs (s : String) : List String := (pySplit s " ").filter (· ≠ "")

/-- Python `s.startswith(p)`. -/
def pyStarts (s p : String) : Bool := p.toList.isPrefixOf s.toList

/-- Python `s.strip(c)`: remove every leading and trailing occurrence of
the character `c`. -/
def pyStripChar (s : String) (c : Char) : String :=
  String.mk (((s.toList.dropWhile (· = c)).reverse.dropWhile (· = c)).reverse)

/-- Python `s.strip()`: remove leading and trailing whitespace. -/
def pyStripWs (s : String) : String :=
  String.mk (((s.toList.dropWhile Char.isWhitespace).reverse.dropWhile
    Char.isWhitespace).reverse)

/-- Python `s.lstrip(c)`. -/
def pyLstrip (s : String) (c : Char) : String :=
  String.mk (s.toList.dropWhile (· = c))

/-- Python `int(s)` restricted to the nonnegative inputs that occur here:
raises ValueError on non-numeric input. -/
def pyInt (s : String) : Except PyErr Nat :=
  if s.toList ≠ [] ∧ s.toList.all Char.isDigit then
    .ok (s.toList.foldl (fun a c => a * 10 + (c.toNat - 48)) 0)
  else .error (.valueErr ("invalid literal for int: " ++ s))

/-- UTF-8 bytes of a string; all strings hashed or encoded by the code are
ASCII, where UTF-8 bytes coincide with code points. -/
def strBytes (s : String) : List Nat := s.toList.map (fun c => c.toNat)

/-! ## MD5 (used by rtsp.py:296-298 and 332-337 via hashlib)

Standard MD5 over byte lists, all 32-bit arithmetic expressed as `Nat`
with explicit reduction mod 2^32. Recursions are structural (length-fuelled)
so that proofs can evaluate digests in the kernel. -/

/-- Wrap to 32 bits. -/
def u32 (n : Nat) : Nat := n % 4294967296

/-- 32-bit left rotation. -/
def rotl32 (x c : Nat) : Nat := u32 ((x <<< c) ||| (x >>> (32 - c)))

/-- 32-bit bitwise complement. -/
def not32 (b : Nat) : Nat := 4294967295 ^^^ b

/-- The 64 MD5 sine constants. -/
def md5K : List Nat :=
  [0xd76aa478, 0xe8c7b756, 0x242070db, 0xc1bdceee,
   0xf57c0faf, 0x4787c62a, 0xa8304613, 0xfd469501,
   0x698098d8, 0x8b44f7af, 0xffff5bb1, 0x895cd7be,
   0x6b901122, 0xfd987193, 0xa679438e, 0x49b40821,
   0xf61e2562, 0xc040b340, 0x265e5a51, 0xe9b6c7aa,
   0xd62f105d, 0x02441453, 0xd8a1e681, 0xe7d3fbc8,
   0x21e1cde6, 0xc33707d6, 0xf4d50d87, 0x455a14ed,
   0xa9e3e905, 0xfcefa3f8, 0x676f02d9, 0x8d2a4c8a,
   0xfffa3942, 0x8771f681, 0x6d9d6122, 0xfde5380c,
   0xa4beea44, 0x4bdecfa9, 0xf6bb4b60, 0xbebfbc70,
   0x289b7ec6, 0xeaa127fa, 0xd4ef3085, 0x04881d05,
   0xd9d4d039, 0xe6db99e5, 0x1fa27cf8, 0xc4ac5665,
   0xf4292244, 0x432aff97, 0xab9423a7, 0xfc93a039,
   0x655b59c3, 0x8f0ccc92, 0xffeff47d, 0x85845dd1,
   0x6fa87e4f, 0xfe2ce6e0, 0xa3014314, 0x4e0811a1,
   0xf7537e82, 0xbd3af235, 0x2ad7d2bb, 0xeb86d391]

/-- The 64 MD5 per-step rotation amounts. -/
def md5S : List Nat :=
  [7, 12, 17, 22, 7, 12, 17, 22, 7, 12, 17, 22, 7, 12, 17, 22,
   5, 9, 14, 20, 5, 9, 14, 20, 5, 9, 14, 20, 5, 9, 14, 20,
   4, 11, 16, 23, 4, 11, 16, 23, 4, 11, 16, 23, 4, 11, 16, 23,
   6, 10, 15, 21, 6, 10, 15, 21, 6, 10, 15, 21, 6, 10, 15, 21]

/-- MD5 padding: 0x80, zeros to 56 mod 64, then the 64-bit little-endian
bit length. -/
def md5Pad (msg : List Nat) : List Nat :=
  msg ++ 0x80 :: List.replicate ((119 - msg.length % 64) % 64) 0 ++
  toBytesLE (msg.length * 8) 8

/-- Little-endian word value of a byte list. -/
def fromBytesLE (bs : List Nat) : Nat := bs.foldr (fun b acc => b + 256 * acc) 0

/-- Split into 64-byte chunks; the fuel is an upper bound on the number of
chunks, and `chunks64` supplies the list length, which always suffices. -/
def chunksGo : Nat → List Nat → List (List Nat)
  | 0, _ => []
  | _, [] => []
  | n + 1, l => l.take 64 :: chunksGo n (l.drop 64)

/-- 64-byte chunks of a byte list. -/
def chunks64 (l : List Nat) : List (List Nat) := chunksGo l.length l

/-- Split a chunk into 16 little-endian 32-bit words (length-fuelled). -/
def wordsGo : Nat → List Nat → List Nat
  | 0, _ => []
  | _, [] => []
  | n + 1, l => fromBytesLE (l.take 4) :: wordsGo n (l.drop 4)

/-- Little-endian 32-bit words of a chunk. -/
def wordsLE (l : List Nat) : List Nat := wordsGo l.length l

/-- One of the 64 MD5 steps. -/
def md5Step (M : List Nat) (st : Nat × Nat × Nat × Nat) (i : Nat) :
    Nat × Nat × Nat × Nat :=
  let (a, b, c, d) := st
  let fg : Nat × Nat :=
    if i < 16 then ((b &&& c) ||| (not32 b &&& d), i)
    else if i < 32 then ((d &&& b) ||| (not32 d &&& c), (5 * i + 1) % 16)
    else if i < 48 then (b ^^^ c ^^^ d, (3 * i + 5) % 16)
    else (c ^^^ (b ||| not32 d), (7 * i) % 16)
  let x := u32 (fg.1 + a + md5K.getD i 0 + M.getD fg.2 0)
  (d, u32 (b + rotl32 x (md5S.getD i 0)), b, c)

/-- Process one 64-byte chunk. -/
def md5Chunk (h : Nat × Nat × Nat × Nat) (chunk : List Nat) :
    Nat × Nat × Nat × Nat :=
  let M := wordsLE chunk
  let r := (List.range 64).foldl (md5Step M) h
  (u32 (h.1 + r.1), u32 (h.2.1 + r.2.1), u32 (h.2.2.1 + r.2.2.1),
   u32 (h.2.2.2 + r.2.2.2))

/-- MD5 digest bytes of a message. -/
def md5Bytes (msg : List Nat) : List Nat :=
  let f := (chunks64 (md5Pad msg)).foldl md5Chunk
    (0x67452301, 0xefcdab89, 0x98badcfe, 0x10325476)
  toBytesLE f.1 4 ++ toBytesLE f.2.1 4 ++ toBytesLE f.2.2.1 4 ++
  toBytesLE f.2.2.2 4

/-- Lowercase hex digit. -/
def hexChar (n : Nat) : Char := if n < 10 then Char.ofNat (48 + n) else Char.ofNat (87 + n)

/-- Lowercase hex rendering of a byte list. -/
def bytesToHex (bs : List Nat) : String :=
  String.mk (bs.foldr (fun b acc => hexChar (b / 16) :: hexChar (b % 16) :: acc) [])

/-- Python `md5(s.encode('utf-8')).hexdigest()`. -/
def md5Hex (s : String) : String := bytesToHex (md5Bytes (strBytes s))

/-! ## base64 (used by rtsp.py:287-289 Basic authentication) -/

/-- The base64 alphabet. -/
def b64Alphabet : List Char :=
  "ABCDEFGHIJKLMNOPQRSTUVWXYZabcdefghijklmnopqrstuvwxyz0123456789+/".toList

/-- One base64 character. -/
def b64Char (n : Nat) : Char := b64Alphabet.getD n 'A'

/-- Encode 3-byte groups (length-fuelled). -/
def b64Go : Nat → List Nat → List Char
  | 0, _ => []
  | _, [] => []
  | _ + 1, [b0] =>
    [b64Char (b0 >>> 2), b64Char ((b0 &&& 3) <<< 4), '=', '=']
  | _ + 1, [b0, b1] =>
    [b64Char (b0 >>> 2), b64Char (((b0 &&& 3) <<< 4) ||| (b1 >>> 4)),
     b64Char ((b1 &&& 15) <<< 2), '=']
  | n + 1, b0 :: b1 :: b2 :: rest =>
    b64Char (b0 >>> 2) :: b64Char (((b0 &&& 3) <<< 4) ||| (b1 >>> 4)) ::
    b64Char (((b1 &&& 15) <<< 2) ||| (b2 >>> 6)) :: b64Char (b2 &&& 63) ::
    b64Go n rest

/-- Python `b64encode(s.encode()).decode('ascii')`. -/
def b64encode (s : String) : String := String.mk (b64Go s.length (strBytes s))

/-! ## Python dict as an association list (insertion order, last write wins) -/

/-- Python dict assignment `d[k] = v`. -/
def pyDictSet {α β : Type} [DecidableEq α] (d : List (α × β)) (k : α) (v : β) :
    List (α × β) :=
  if d.any (fun p => p.1 = k) then d.map (fun p => if p.1 = k then (k, v) else p)
  else d ++ [(k, v)]

/-- Python dict lookup `d.get(k)` returning None when absent. -/
def pyDictGet {α β : Type} [DecidableEq α] (d : List (α × β)) (k : α) : Option β :=
  (d.find? (fun p => decide (p.1 = k))).map (·.2)

/-- Python dict subscript `d[k]`: raises KeyError when absent. -/
def pyDictItem (d : List (String × String)) (k : String) : Except PyErr String :=
  match pyDictGet d k with
  | some v => .ok v
  | none => .error (.keyErr k)

/-! ## sdp.py: attribute lines (sdp.py:131-133, 206-208)

`SessionDescription._set_attribute_line` and
`MediaDescription._set_attribute_line` have identical bodies; one embedding
covers both. -/

/-- sdp.py:131-133 and 206-208 `_set_attribute_line`:
`l = value.split(':'); self._attributes[l[0]] = l[1]`. For a flag-style
attribute (no colon in `value`) the subscript `l[1]` raises IndexError. -/
def _set_attribute_line (attributes : List (String × String)) (value : String) :
    Except PyErr (List (String × String)) := do
  let l := pySplit value ":"
  let k ← pyIdx l 0
  let v ← pyIdx l 1
  .ok (pyDictSet attributes k v)

/-! ## rtsp.py: Connection.add_sink (rtsp.py:373-376) -/

/-- Attributes present on an `Sdp` object: the instance fields assigned in
`Sdp.__init__` (sdp.py:212-214) and the methods of class `Sdp`
(sdp.py:211-230). There is no `empty` among them. -/
def sdpObjectAttrs : List String :=
  ["_session_description", "_media_descriptions", "__init__", "parse",
   "media", "__repr__"]

/-- Python attribute lookup on an `Sdp` object: raises AttributeError when the
name is neither an instance field nor a class method. -/
def sdpGetAttr (name : String) : Except PyErr String :=
  if sdpObjectAttrs.contains name then .ok name
  else .error (.attributeErr "Sdp" name)

/-- rtsp.py:373-376 `Connection.add_sink`: evaluates `self._proto.sdp.empty()`
as an attribute lookup followed by a call. `sdpEmptyValue` stands for the
boolean that call would return if `Sdp` had an `empty` method; the lookup
raises before it can matter. Were the lookup to succeed, the code would call
`sink.on_sdp` when the SDP is non-empty (returned as the second component) and
store the sink in the sink table under `reg_key` (rtsp.py:376). -/
def add_sink (sdpEmptyValue : Bool) (sink_table : List ((String × Nat) × Nat))
    (reg_key : String × Nat) (sink : Nat) :
    Except PyErr (List ((String × Nat) × Nat) × Bool) := do
  let _ ← sdpGetAttr "empty"
  .ok (pyDictSet sink_table reg_key sink, !sdpEmptyValue)

/-! ## rtsp.py: Source authentication (rtsp.py:42-69, 275-337)

The slice of `Source` state that the authentication and request-composition
methods read and write. -/

/-- Authentication-relevant fields of rtsp.py:42-69 `Source.__init__`:
`credentials` (user, password), `url` (set by `stream_request`), `_sequence`,
the two `_authorization` slots (Basic line and Digest prefix), `ha1`, `nonce`
and the 401 counter `_credentials_not_accepted`. -/
structure SourceAuth where
  credentials : List String
  url : String
  sequence : Nat
  authorization_basic : String
  authorization_digest : String
  ha1 : String
  nonce : String
  credentials_not_accepted : Nat
deriving DecidableEq, Repr

/-- rtsp.py:43-69 `Source.__init__` restricted to the fields above. -/
def Source.init (credentials : List String) : SourceAuth :=
  ⟨credentials, "", 1, "", "", "", "", 0⟩

/-- rtsp.py:332-337 `Source._get_authorization`: when the Digest prefix is
set, append `md5(ha1:nonce:md5(method:url))` and a closing quote to it;
otherwise return the Basic line (possibly empty). -/
def _get_authorization (s : SourceAuth) (method : String) : String :=
  if s.authorization_digest ≠ "" then
    let ha2 := md5Hex (method ++ ":" ++ s.url)
    let response := md5Hex (s.ha1 ++ ":" ++ s.nonce ++ ":" ++ ha2)
    s.authorization_digest ++ response ++ "\"\r\n"
  else s.authorization_basic

/-- rtsp.py:312-317 `Source._ask_describe`. -/
def _ask_describe (s : SourceAuth) : String :=
  "DESCRIBE " ++ s.url ++ " RTSP/1.0\r\n" ++
  "Accept: application/sdp\r\n" ++
  "CSeq: " ++ toString s.sequence ++ "\r\n" ++
  "User-Agent: debug-cdn\r\n" ++
  _get_authorization s "DESCRIBE" ++ "\r\n"

/-- rtsp.py:286-289 `Source._set_basic_authentication`. -/
def _set_basic_authentication (s : SourceAuth) : Except PyErr SourceAuth := do
  let c0 ← pyIdx s.credentials 0
  let c1 ← pyIdx s.credentials 1
  .ok { s with authorization_basic :=
          "Authorization: Basic " ++ b64encode (c0 ++ ":" ++ c1) ++ "\r\n" }

/-- rtsp.py:292-295: parse the parameter list after `Digest`, splitting on
commas, then on `=`, stripping whitespace and quotes. -/
def digestParams (header : String) : Except PyErr (List (String × String)) := do
  let parts ← pyIdx (pySplit header "Digest") 1
  (pySplit parts ",").foldlM (fun acc p => do
    let l := pySplit (pyStripWs p) "="
    let k ← pyIdx l 0
    let v ← pyIdx l 1
    .ok (pyDictSet acc k (pyStripChar v '"'))) []

/-- rtsp.py:291-305 `Source._set_digest_authentication`: compute
`HA1 = md5(user:realm:pass)`, record the nonce, and store the
`Authorization: Digest ...` prefix ending in `response="`. -/
def _set_digest_authentication (s : SourceAuth) (header : String) :
    Except PyErr SourceAuth := do
  let params ← digestParams header
  let c0 ← pyIdx s.credentials 0
  let realm ← pyDictItem params "realm"
  let c1 ← pyIdx s.credentials 1
  let ha1 := md5Hex (c0 ++ ":" ++ realm ++ ":" ++ c1)
  let nonce ← pyDictItem params "nonce"
  .ok { s with
    ha1 := ha1
    nonce := nonce
    authorization_digest :=
      "Authorization: Digest username=\"" ++ c0 ++ "\", realm=\"" ++ realm ++
      "\", nonce=\"" ++ nonce ++ "\", uri=\"" ++ s.url ++
      "\", algorithm=\"MD5\", response=\"" }

/-- rtsp.py:275-284 `Source._set_authentication`: raise once more than four
401 responses have been handled, otherwise bump the counter, set Basic or
Digest authorization from the `WWW-Authenticate` header, and resend DESCRIBE
(the returned string). -/
def _set_authentication (s : SourceAuth) (header : String) :
    Except PyErr (SourceAuth × String) := do
  if 4 < s.credentials_not_accepted then
    .error (.credentialsNotAccepted s.credentials)
  else
    let s := { s with credentials_not_accepted := s.credentials_not_accepted + 1 }
    let realm ← pyIdx (pySplitWs header) 1
    let s ← if pyStarts realm "Basic" then _set_basic_authentication s
      else if pyStarts realm "Digest" then _set_digest_authentication s header
      else .ok s
    .ok (s, _ask_describe s)

/-- A run in which every DESCRIBE is answered by a 401 with the given
`WWW-Authenticate` header: `n` successive invocations of
`_set_authentication`, counting the DESCRIBE requests sent. -/
def run401 (header : String) : Nat → SourceAuth → Except PyErr (Nat × SourceAuth)
  | 0, s => .ok (0, s)
  | n + 1, s =>
    match _set_authentication s header with
    | .error e => .error e
    | .ok (s', _) =>
      match run401 header n s' with
      | .error e => .error e
      | .ok (k, s'') => .ok (k + 1, s'')

/-! ## url.py: regex engine and Url (url.py:10-29)

A small backtracking regex interpreter sufficient for the two patterns of
`Url.__init__`, with Python `re.search` semantics: leftmost match position,
greedy quantifiers with backtracking, numbered capture groups
(1=proto, 2=auth, 3=ip, 4=port, 5=content; an optional group that did not
participate has no entry). -/

/-- Regex abstract syntax: empty, single character class, sequencing,
ordered alternation (left branch preferred, as Python tries the longer
variant of a greedy quantifier first), capture group, and greedy Kleene star
of a character class (the only unbounded repetitions in the two patterns are
over single character classes). -/
inductive Re where
  | eps : Re
  | chr : (Char → Bool) → Re
  | cat : Re → Re → Re
  | alt : Re → Re → Re
  | grp : Nat → Re → Re
  | star : (Char → Bool) → Re

/-- Backtracking matcher in continuation-passing style. The fuel only bounds
the call-chain depth (one unit per interpreter step along a single path);
`reFuel` below is a generous upper bound for the fixed URL patterns. -/
def matchRe : Nat → Re → List Char → List (Nat × List Char) →
    (List Char → List (Nat × List Char) → Option (List (Nat × List Char))) →
    Option (List (Nat × List Char))
  | 0, _, _, _, _ => none
  | _ + 1, .eps, s, caps, k => k s caps
  | _ + 1, .chr _, [], _, _ => none
  | _ + 1, .chr p, c :: s, caps, k => if p c then k s caps else none
  | n + 1, .cat a b, s, caps, k =>
    matchRe n a s caps (fun s' caps' => matchRe n b s' caps' k)
  | n + 1, .alt a b, s, caps, k =>
    (matchRe n a s caps k).orElse (fun _ => matchRe n b s caps k)
  | n + 1, .grp g r, s, caps, k =>
    matchRe n r s caps
      (fun s' caps' => k s' ((g, s.take (s.length - s'.length)) :: caps'))
  | n + 1, .star p, s, caps, k =>
    (match s with
     | c :: s' => if p c then matchRe n (.star p) s' caps k else none
     | [] => none).orElse (fun _ => k s caps)

/-- Fuel bound: pattern size plus input length, with slack. -/
def reFuel (s : List Char) : Nat := 2 * s.length + 400

/-- Try an (unanchored-end) match at the start of `s`. -/
def reMatchAt (r : Re) (s : List Char) : Option (List (Nat × List Char)) :=
  matchRe (reFuel s) r s [] (fun _ caps => some caps)

/-- Worker for `reSearch`, structural on a fuel that `reSearch` sets to the
number of start positions. -/
def reSearchGo (r : Re) : Nat → List Char → Option (List (Nat × List Char))
  | 0, _ => none
  | n + 1, s =>
    match reMatchAt r s with
    | some caps => some caps
    | none =>
      match s with
      | [] => none
      | _ :: t => reSearchGo r n t

/-- Python `re.search`: try each start position from the left. -/
def reSearch (r : Re) (s : List Char) : Option (List (Nat × List Char)) :=
  reSearchGo r (s.length + 1) s

/-- Python `m[name]` on a numbered group: None when the group did not
participate in the match. -/
def capGet (caps : List (Nat × List Char)) (g : Nat) : Option String :=
  (caps.find? (fun p => p.1 = g)).map (fun p => String.mk p.2)

/-- Python regex `\w` (ASCII range; the URLs handled are ASCII). -/
def isWordCh (c : Char) : Bool := c.isAlphanum || c = '_'

/-- Python regex `\d`. -/
def isDigitCh (c : Char) : Bool := c.isDigit

/-- The `[\w%<]` class of the auth password part. -/
def isAuthCh (c : Char) : Bool := isWordCh c || c = '%' || c = '<'

/-- Python regex `.` (anything but a newline). -/
def isAnyCh (c : Char) : Bool := c ≠ '\n'

/-- A literal character. -/
def chLit (c : Char) : Re := .chr (fun x => x = c)

/-- Sequence a list of regexes. -/
def reSeq (l : List Re) : Re := l.foldr .cat .eps

/-- `p{n}`: exactly `n` characters of a class. -/
def reExact (p : Char → Bool) : Nat → Re
  | 0 => .eps
  | n + 1 => .cat (.chr p) (reExact p n)

/-- `p{0,n}` greedy: up to `n` characters, preferring more. -/
def reUpTo (p : Char → Bool) : Nat → Re
  | 0 => .eps
  | n + 1 => .alt (.cat (.chr p) (reUpTo p n)) .eps

/-- `p{lo,hi}` greedy. -/
def reBounded (p : Char → Bool) (lo hi : Nat) : Re :=
  .cat (reExact p lo) (reUpTo p (hi - lo))

/-- `p+` greedy. -/
def rePlus (p : Char → Bool) : Re := .cat (.chr p) (.star p)

/-- url.py:12-16: `(?P<proto>\w{4})://(?P<auth>[\w]+:[\w%<]+@)?`
`(?P<ip>[\d]{1,3}\.[\d]{1,3}\.[\d]{1,3}\.[\d]{1,3})(?P<port>:[\d]{3,6})?`
`(?P<content>.*)`. -/
def urlPattern1 : Re :=
  reSeq [.grp 1 (reExact isWordCh 4), chLit ':', chLit '/', chLit '/',
         .alt (.grp 2 (reSeq [rePlus isWordCh, chLit ':', rePlus isAuthCh,
                              chLit '@'])) .eps,
         .grp 3 (reSeq [reBounded isDigitCh 1 3, chLit '.',
                        reBounded isDigitCh 1 3, chLit '.',
                        reBounded isDigitCh 1 3, chLit '.',
                        reBounded isDigitCh 1 3]),
         .alt (.grp 4 (.cat (chLit ':') (reBounded isDigitCh 3 6))) .eps,
         .grp 5 (.star isAnyCh)]

/-- url.py:19: the same pattern with the host replaced by `(?P<ip>[\w\.]+)`. -/
def urlPattern2 : Re :=
  reSeq [.grp 1 (reExact isWordCh 4), chLit ':', chLit '/', chLit '/',
         .alt (.grp 2 (reSeq [rePlus isWordCh, chLit ':', rePlus isAuthCh,
                              chLit '@'])) .eps,
         .grp 3 (rePlus (fun c => isWordCh c || c = '.')),
         .alt (.grp 4 (.cat (chLit ':') (reBounded isDigitCh 3 6))) .eps,
         .grp 5 (.star isAnyCh)]

/-- url.py:10 `Url` fields: `address = (ip, port)`, `content`,
`credentials` (empty when the URL carries none). -/
structure Url where
  address : String × Nat
  content : String
  credentials : List String
deriving DecidableEq, Repr

/-- url.py:23-28: build the Url fields from a successful match:
port defaults to 554, credentials come from `auth[:-1].split(':')`. -/
def urlBuild (m : List (Nat × List Char)) : Except PyErr Url := do
  let port ← match capGet m 4 with
    | some p => pyInt (String.mk p.toList.tail)
    | none => .ok 554
  let ip := (capGet m 3).getD ""
  let content := (capGet m 5).getD ""
  let credentials := match capGet m 2 with
    | some a => pySplit (String.mk a.toList.dropLast) ":"
    | none => []
  .ok ⟨(ip, port), content, credentials⟩

/-- url.py:11-28 `Url.__init__`: search the dotted-quad pattern first; only
when it fails, search the hostname fallback and check the scheme; raise
UrlException when neither matches or the fallback's scheme is not `rtsp`. -/
def Url.init (url : String) : Except PyErr Url :=
  match reSearch urlPattern1 url.toList with
  | some m => urlBuild m
  | none =>
    match reSearch urlPattern2 url.toList with
    | some m =>
      if capGet m 1 ≠ some "rtsp" then .error (.invalidUrl url) else urlBuild m
    | none => .error (.invalidUrl url)

/-! ## flv.py: Connection._set_source (flv.py:145-170)

The registry (`connections` kwarg, owned by service.py) is modelled as the
list of registered upstream addresses. -/

/-- Positional parameters (after `self`, none with a default) of rtsp.py:342
`Connection.__init__`. -/
def rtspConnectionInitParams : List String := ["address", "proto", "br"]

/-- Positional parameters (after `self`, none with a default) of rtsp.py:43
`Source.__init__`. -/
def rtspSourceInitParams : List String := ["credentials", "content", "fps"]

/-- Python positional-argument binding: calling a function whose positional
parameters (all without defaults) are `params` with `provided` positional
arguments raises TypeError unless the counts agree. -/
def pyBindArgs (fn : String) (params : List String) (provided : Nat) :
    Except PyErr Unit :=
  if provided = params.length then .ok () else .error (.typeErr fn)

/-- Result of `_set_source`: the registry afterwards and the address of the
source the sink was attached to (none when the request line had no `GET `). -/
structure SetSourceEffect where
  connections : List (String × Nat)
  attached : Option (String × Nat)
deriving DecidableEq, Repr

/-- flv.py:159-170 `Connection._set_source`: on a `GET ` request line, parse
the URL after the leading slashes; when its address is not yet registered,
evaluate `rtsp.Connection(url.address, rtsp.Source(url.credentials,
url.content, None))` (flv.py:164) — the inner `Source` call binds 3 arguments
to 3 parameters, the outer `Connection` call binds only 2 of 3 — then
`add_sink` (flv.py:165) and register (flv.py:166); when already registered,
just `add_sink` (flv.py:169-170). The arguments fed to `add_sink` here are
irrelevant: it raises on its `empty` lookup for every input. -/
def _set_source (headers : List String) (reg_key : String × Nat)
    (connections : List (String × Nat)) : Except PyErr SetSourceEffect := do
  let h0 ← pyIdx headers 0
  if hasSubstring "GET " h0 then do
    let arg ← pyIdx (pySplit h0 " ") 1
    let url ← Url.init (pyLstrip arg '/')
    if connections.any (fun a => a = url.address) then do
      let _ ← add_sink true [] reg_key 0
      .ok ⟨connections, some url.address⟩
    else do
      let _ ← pyBindArgs "Source.__init__" rtspSourceInitParams 3
      let _ ← pyBindArgs "Connection.__init__" rtspConnectionInitParams 2
      let _ ← add_sink true [] reg_key 0
      .ok ⟨connections ++ [url.address], some url.address⟩
  else .ok ⟨connections, none⟩

/-- flv.py:150-156 the first-read branch of `Connection.on_read_event`: run
`_set_source` on the decoded request split at CRLF; any exception becomes the
400 response with the exception text in `Warning:`. Returns the bytes placed
on the sink's outbound buffer and the registry afterwards. -/
def flv_on_first_read (data : String) (reg_key : String × Nat)
    (connections : List (String × Nat)) : String × List (String × Nat) :=
  match _set_source (pySplit data "\r\n") reg_key connections with
  | .ok eff => ("", eff.connections)
  | .error e =>
    ("HTTP/1.0 400 Bad Request\r\nWarning: " ++ e.message ++ "\r\n\r\n",
     connections)

/-! ## flv.py: Connection._compile_aac_header (flv.py:178-211) -/

/-- Hex digits of `n`, big-endian, structural on a fuel that the caller sets
at least as large as the digit count. -/
def hexDigitsGo : Nat → Nat → List Nat
  | 0, _ => []
  | f + 1, n => if n = 0 then [] else hexDigitsGo f (n / 16) ++ [n % 16]

/-- Python `hex(n)[2:]` as a list of digit values (no leading zeros, `[0]`
for zero). -/
def pyHexDigits (n : Nat) : List Nat :=
  if n = 0 then [0] else hexDigitsGo n n

/-- Pair up hex digits into bytes (structural on a fuel). -/
def fromHexGo : Nat → List Nat → List Nat
  | 0, _ => []
  | _ + 1, [] => []
  | _ + 1, [_] => []
  | f + 1, hi :: lo :: rest => (hi * 16 + lo) :: fromHexGo f rest

/-- Python `bytes.fromhex`: raises ValueError on an odd digit count. -/
def pyFromHex (digs : List Nat) : Except PyErr (List Nat) :=
  if digs.length % 2 = 0 then .ok (fromHexGo digs.length digs)
  else .error (.valueErr "non-hexadecimal number found in fromhex")

/-- flv.py:179-192 the 13-entry frequency table. -/
def frq_idx : List (Nat × Nat) :=
  [(96000, 0), (88200, 1), (64000, 2), (48000, 3), (44100, 4), (32000, 5),
   (24000, 6), (22050, 7), (16000, 8), (12000, 9), (11025, 10), (8000, 11),
   (7350, 12)]

/-- flv.py:196: `frq_idx.get(clock_rate, None) if frq_idx.get(clock_rate)
else 15`. Python truthiness: a looked-up index of 0 (rate 96000) is falsy,
so it falls through to 15 exactly like an absent rate. -/
def aacFrequencyIndex (clock_rate : Nat) : Nat :=
  match pyDictGet frq_idx clock_rate with
  | some i => if i ≠ 0 then i else 15
  | none => 15

/-- flv.py:193-210: the AudioSpecificConfig bytes for a clock rate and
channel count, with object_type = 2: the 2-byte implicit form when a table
index is used, the explicit form embedding the rate when the index is 15. -/
def compileAacConf (clock_rate channels : Nat) : Except PyErr (List Nat) :=
  let object_type := 2
  let idx := aacFrequencyIndex clock_rate
  if idx = 15 then
    pyFromHex (pyHexDigits (((object_type &&& 0x1f) <<< 35) |||
                            ((idx &&& 15) <<< 31) |||
                            ((clock_rate &&& 0xffffff) <<< 7) |||
                            ((channels &&& 15) <<< 3)))
  else
    pyFromHex (pyHexDigits (((object_type &&& 0x1f) <<< 11) |||
                            ((idx &&& 15) <<< 7) |||
                            ((channels &&& 15) <<< 3)))

/-- flv.py:178-211 `_compile_aac_header`: parse the rtpmap tail
`[rate, channels?]` (channels default 1), compute the config, and wrap it in
an FLV body as an AAC sequence-header AudioTag with timestamp 0. -/
def _compile_aac_header (attrib : List String) : Except PyErr (List Nat) := do
  let a0 ← pyIdx attrib 0
  let clock_rate ← pyInt a0
  let channels ← if attrib.length > 1 then do
      let a1 ← pyIdx attrib 1
      pyInt a1
    else .ok 1
  let conf ← compileAacConf clock_rate channels
  .ok (FlvBody (AudioTag conf 0 audio_data_default 0))

/-! ## rtsp.py: interleaved framer and H.264 depacketizer (rtsp.py:133-179) -/

/-- An invocation of `_on_video_frame_ready` or `_on_audio_frame_ready`
(rtsp.py:170, 173, 176): the accumulated frame (`self._frame`) and the RTP
timestamp of the packet that completed it. The video events are the NALs the
depacketizer emits upward. -/
inductive MediaEvent where
  | video (frame : List Nat) (timestamp : Nat)
  | audio (frame : List Nat) (timestamp : Nat)
deriving DecidableEq, Repr

/-- rtsp.py:142-179 the while loop of `_on_rtp_data`: parse the interleaved
header `($, channel, size)` and the RTP header at the buffer head; while more
than `size + 8` bytes are buffered, handle one packet — on the video channel
(0) a FU-A fragment (type 28) starts a new frame with the synthesized NAL
header when `s = 1`, appends payload `[18:size+4)`, and is ready when
`e = 1`; any other type takes `[16:size+4)` as a whole NAL; the audio channel
(2) takes `[16:size+4)` — then drop `size + 4` bytes and repeat. Returns the
events in order, the remaining buffer, and the frame accumulator.
Out-of-range byte reads return 0 where Python would raise IndexError; the
guard keeps every read made here in range whenever at least 4 bytes remain
buffered, which holds throughout the runs the theorems examine. -/
def rtpLoop (buffer frame : List Nat) : List MediaEvent × List Nat × List Nat :=
  let size := fromBytesBE (pySlice buffer 2 4)
  let channel := pyAt buffer 1
  if h : size + 8 < buffer.length then
    let ts := fromBytesBE (pySlice buffer 8 12)
    let rest := buffer.drop (size + 4)
    if channel = 0 then
      let b16 := pyAt buffer 16
      if b16 &&& 0x1f = 28 then
        let b17 := pyAt buffer 17
        let fr := (if b17 >>> 7 ≠ 0 then
                     toBytesBE (((b16 >>> 7) <<< 7) |||
                                (((b16 >>> 5) &&& 3) <<< 5) |||
                                (b17 &&& 0x1f)) 1
                   else frame) ++ pySlice buffer 18 (size + 4)
        if (b17 >>> 6) &&& 1 ≠ 0 then
          let r := rtpLoop rest fr
          (.video fr ts :: r.1, r.2)
        else rtpLoop rest fr
      else
        let fr := pySlice buffer 16 (size + 4)
        let r := rtpLoop rest fr
        (.video fr ts :: r.1, r.2)
    else if channel = 2 then
      let fr := pySlice buffer 16 (size + 4)
      let r := rtpLoop rest fr
      (.audio fr ts :: r.1, r.2)
    else rtpLoop rest frame
  else ([], buffer, frame)
termination_by buffer.length
decreasing_by all_goals (simp only [List.length_drop]; omega)

/-- The framer state: `self._buffer` and `self._frame`. -/
structure RtpState where
  buffer : List Nat
  frame : List Nat
deriving DecidableEq, Repr

/-- rtsp.py:133-141 `_on_rtp_data` entry: append `data` to the buffer; when
the buffer does not start with `$` (0x24), discard through the first CRLFCRLF
(an inline RTSP reply) or, failing that, wait for more bytes; then run the
packet loop. -/
def _on_rtp_data (st : RtpState) (data : List Nat) : List MediaEvent × RtpState :=
  let buffer := st.buffer ++ data
  if pyAt buffer 0 ≠ 0x24 then
    match pyFind [13, 10, 13, 10] buffer with
    | some i =>
      let r := rtpLoop (buffer.drop (i + 4)) st.frame
      (r.1, ⟨r.2.1, r.2.2⟩)
    | none => ([], ⟨buffer, st.frame⟩)
  else
    let r := rtpLoop buffer st.frame
    (r.1, ⟨r.2.1, r.2.2⟩)

/-- The 12-byte RTP header carried by the claim's fragments: all-zero fields;
only the timestamp bytes (8-11, here 0) are consulted by the depacketizer. -/
def rtpHeaderZero : List Nat := [0, 0, 0, 0, 0, 0, 0, 0, 0, 0, 0, 0]

/-- One interleaved FU-A fragment on the video channel, as in the claim: `$`,
channel 0, 16-bit size `len(payload) + 14`, the RTP header, the FU indicator
`(f<<7)|(nri<<5)|28`, the FU header `(s<<7)|(e<<6)|(r<<5)|t`, the payload
(the bytes `[18:size+4)` of the packet). -/
def fuPacket (f nri s e r t : Nat) (payload : List Nat) : List Nat :=
  0x24 :: 0 :: ((payload.length + 14) / 256) :: ((payload.length + 14) % 256) ::
  (rtpHeaderZero ++ (((f <<< 7) ||| (nri <<< 5) ||| 28) ::
   ((s <<< 7) ||| (e <<< 6) ||| (r <<< 5) ||| t) :: payload))

/-- Five trailing bytes that do not yet form a releasable packet: the guard
`len(buffer) > size + 8` (rtsp.py:147) only releases a packet once at least
five bytes of the data following it have been buffered; these bytes model the
start of that following data (size field 0, so the loop stops on them). -/
def streamTail : List Nat := [0x24, 0, 0, 0, 0]

/-- The byte stream of one frame sent as FU-A fragments `first, mids, last`
in order, followed by `streamTail`. -/
def fuStream (f nri r t : Nat) (pfirst : List Nat) (mids : List (List Nat))
    (plast : List Nat) : List Nat :=
  fuPacket f nri 1 0 r t pfirst ++
  ((mids.map (fuPacket f nri 0 0 r t)).flatten ++
   (fuPacket f nri 0 1 r t plast ++ streamTail))

/-- The NAL the claim expects: the synthesized header byte followed by the
fragment payloads in arrival order. -/
def fuNal (f nri t : Nat) (pfirst : List Nat) (mids : List (List Nat))
    (plast : List Nat) : List Nat :=
  ((f <<< 7) ||| (nri <<< 5) ||| t) :: (pfirst ++ (mids.flatten ++ plast))

/-! ## Concrete run fixtures used by the theorems -/

/-- A `WWW-Authenticate` header sent with each 401 in the retry run. -/
def digest401Header : String := "WWW-Authenticate: Digest realm=\"r\", nonce=\"n\""

/-- A source with credentials whose DESCRIBEs keep being rejected; the url is
the one `stream_request` (rtsp.py:71-80) would have set. -/
def source401 : SourceAuth :=
  { Source.init ["user", "pass"] with url := "rtsp://1.2.3.4:554/cam" }

/-- The RFC 2617 canonical inputs: user `Mufasa`, password `Circle Of Life`,
uri `/dir/index.html`. -/
def canonicalSource : SourceAuth :=
  { Source.init ["Mufasa", "Circle Of Life"] with url := "/dir/index.html" }

/-- The RFC 2617 canonical challenge header. -/
def canonicalHeader : String :=
  "WWW-Authenticate: Digest realm=\"testrealm@host.com\", nonce=\"dcd98b7102dd2f0e8b11d0f600bfb0c093\""

set_option maxRecDepth 4096

/-! # Theorems -/

/-! ## Helper lemmas -/

theorem toBytesBE_length (n k : Nat) : (toBytesBE n k).length = k := by
  induction k generalizing n with
  | zero => rfl
  | succ k ih => simp [toBytesBE, ih]

theorem toBytesBE_three (n : Nat) :
    toBytesBE n 3 = [n / 256 / 256 % 256, n / 256 % 256, n % 256] := rfl

theorem toBytesBE_four (n : Nat) :
    toBytesBE n 4 =
      [n / 256 / 256 / 256 % 256, n / 256 / 256 % 256, n / 256 % 256, n % 256] := rfl

theorem fromBytesBE_toBytesBE_three (n : Nat) :
    fromBytesBE (toBytesBE n 3) = n % 16777216 := by
  show ((0 * 256 + n / 256 / 256 % 256) * 256 + n / 256 % 256) * 256 + n % 256
      = n % 16777216
  omega

theorem fromBytesBE_toBytesBE_four (n : Nat) :
    fromBytesBE (toBytesBE n 4) = n % 4294967296 := by
  show (((0 * 256 + n / 256 / 256 / 256 % 256) * 256 + n / 256 / 256 % 256) * 256
      + n / 256 % 256) * 256 + n % 256 = n % 4294967296
  omega

theorem FlvTag_length (tt L T : Nat) : (FlvTag tt L T).length = 11 := by
  simp [FlvTag, toBytesBE_length]

theorem FlvTag_declared (tt L T : Nat) (rest : List Nat) :
    pySlice (FlvTag tt L T ++ rest) 1 4 = toBytesBE L 3 := by
  simp [FlvTag, pySlice, toBytesBE]

theorem flvBody_wellformed (tt L T : Nat) (rest : List Nat)
    (hL : L < 16777216) (hrest : rest.length = L) :
    (FlvBody (FlvTag tt L T ++ rest)).length = (FlvTag tt L T ++ rest).length + 4 ∧
    fromBytesBE ((FlvBody (FlvTag tt L T ++ rest)).drop (FlvTag tt L T ++ rest).length) =
      (FlvTag tt L T ++ rest).length ∧
    (FlvTag tt L T ++ rest).length = 11 + fromBytesBE (pySlice (FlvTag tt L T ++ rest) 1 4) := by
  have hlen : (FlvTag tt L T ++ rest).length = 11 + L := by
    simp [FlvTag_length, hrest]
  refine ⟨?_, ?_, ?_⟩
  · simp [FlvBody, toBytesBE_length]; omega
  · rw [FlvBody, List.drop_left, fromBytesBE_toBytesBE_four, Nat.mod_eq_of_lt]
    rw [hlen]; omega
  · rw [FlvTag_declared, fromBytesBE_toBytesBE_three, Nat.mod_eq_of_lt hL, hlen]

/-- C8: for AVC sequence-header tags, AVC NALU tags and AAC audio tags, the
FLV body is the tag bytes followed by a big-endian u32 equal to their length
(checked by decoding the 4 trailing bytes), and that length is 11 plus the
payload length declared in the header's 24-bit length field (bytes 1-3). -/
theorem flv_body_trailer (data sample : List Nat) (ft ts ats pt : Nat)
    (hd : data.length + 5 < 16777216) (hft : ft < 16) (hts : ts < 4294967296)
    (hs : sample.length + 2 < 16777216) (hats : ats < 4294967296) (hpt : pt < 256) :
    ((FlvBody (AvcSequenceHeader data)).length = (AvcSequenceHeader data).length + 4 ∧
     fromBytesBE ((FlvBody (AvcSequenceHeader data)).drop (AvcSequenceHeader data).length)
       = (AvcSequenceHeader data).length ∧
     (AvcSequenceHeader data).length = 11 + fromBytesBE (pySlice (AvcSequenceHeader data) 1 4)) ∧
    ((FlvBody (AvcNalUnit ft data ts)).length = (AvcNalUnit ft data ts).length + 4 ∧
     fromBytesBE ((FlvBody (AvcNalUnit ft data ts)).drop (AvcNalUnit ft data ts).length)
       = (AvcNalUnit ft data ts).length ∧
     (AvcNalUnit ft data ts).length = 11 + fromBytesBE (pySlice (AvcNalUnit ft data ts) 1 4)) ∧
    ((FlvBody (AudioTag sample ats audio_data_default pt)).length
       = (AudioTag sample ats audio_data_default pt).length + 4 ∧
     fromBytesBE ((FlvBody (AudioTag sample ats audio_data_default pt)).drop
         (AudioTag sample ats audio_data_default pt).length)
       = (AudioTag sample ats audio_data_default pt).length ∧
     (AudioTag sample ats audio_data_default pt).length
       = 11 + fromBytesBE (pySlice (AudioTag sample ats audio_data_default pt) 1 4)) := by
  have e1 : AvcSequenceHeader data =
      FlvTag TagType_VIDEO (data.length + 5) 0 ++
        (toBytesBE ((1 <<< 4) ||| 7) 1 ++ (toBytesBE 0 1 ++ ([0, 0, 0] ++ data))) := by
    simp [AvcSequenceHeader, VideoTag]
  have e2 : AvcNalUnit ft data ts =
      FlvTag TagType_VIDEO (data.length + 5) ts ++
        (toBytesBE ((ft <<< 4) ||| 7) 1 ++ (toBytesBE 1 1 ++ ([0, 0, 0] ++ data))) := by
    simp [AvcNalUnit, VideoTag]
  have e3 : AudioTag sample ats audio_data_default pt =
      FlvTag TagType_AUDIO (sample.length + 2) ats ++
        ([audio_data_default] ++ (toBytesBE pt 1 ++ sample)) := by
    simp [AudioTag]
  refine ⟨?_, ?_, ?_⟩
  · rw [e1]
    exact flvBody_wellformed _ _ _ _ (by omega) (by simp [toBytesBE_length]; omega)
  · rw [e2]
    exact flvBody_wellformed _ _ _ _ (by omega) (by simp [toBytesBE_length]; omega)
  · rw [e3]
    exact flvBody_wellformed _ _ _ _ (by omega) (by simp [toBytesBE_length]; omega)

/-- Witness for `flv_body_trailer` at concrete tags. -/
theorem flv_body_trailer_witness :
    ((FlvBody (AvcSequenceHeader [1, 2, 3])).length = (AvcSequenceHeader [1, 2, 3]).length + 4 ∧
     fromBytesBE ((FlvBody (AvcSequenceHeader [1, 2, 3])).drop (AvcSequenceHeader [1, 2, 3]).length)
       = (AvcSequenceHeader [1, 2, 3]).length ∧
     (AvcSequenceHeader [1, 2, 3]).length = 11 + fromBytesBE (pySlice (AvcSequenceHeader [1, 2, 3]) 1 4)) ∧
    ((FlvBody (AvcNalUnit 2 [1, 2, 3] 90)).length = (AvcNalUnit 2 [1, 2, 3] 90).length + 4 ∧
     fromBytesBE ((FlvBody (AvcNalUnit 2 [1, 2, 3] 90)).drop (AvcNalUnit 2 [1, 2, 3] 90).length)
       = (AvcNalUnit 2 [1, 2, 3] 90).length ∧
     (AvcNalUnit 2 [1, 2, 3] 90).length = 11 + fromBytesBE (pySlice (AvcNalUnit 2 [1, 2, 3] 90) 1 4)) ∧
    ((FlvBody (AudioTag [4, 5] 7 audio_data_default 1)).length
       = (AudioTag [4, 5] 7 audio_data_default 1).length + 4 ∧
     fromBytesBE ((FlvBody (AudioTag [4, 5] 7 audio_data_default 1)).drop
         (AudioTag [4, 5] 7 audio_data_default 1).length)
       = (AudioTag [4, 5] 7 audio_data_default 1).length ∧
     (AudioTag [4, 5] 7 audio_data_default 1).length
       = 11 + fromBytesBE (pySlice (AudioTag [4, 5] 7 audio_data_default 1) 1 4)) :=
  flv_body_trailer [1, 2, 3] [4, 5] 2 90 7 1 (by decide) (by decide) (by decide)
    (by decide) (by decide) (by decide)

/-- C9 (code bug at rate 96000): the rate 96000 appears in the 13-entry
frequency table with index 0, yet `_compile_aac_header` emits the 5-byte
explicit AudioSpecificConfig for it instead of the claimed 2-byte implicit
packing `objectType(5)|idx(4)|channels(4)|0(3)` (which would be `10 10`),
because the looked-up index 0 is falsy in `if frq_idx.get(clock_rate)`
(flv.py:196); for 44100/2ch the implicit payload is `12 10` as claimed. -/
theorem aac_rate96000_explicit_config :
    pyDictGet frq_idx 96000 = some 0 ∧
    compileAacConf 96000 2 = .ok [0x17, 0x80, 0xbb, 0x80, 0x10] ∧
    [0x17, 0x80, 0xbb, 0x80, 0x10] ≠
      toBytesBE ((2 <<< 11) ||| (0 <<< 7) ||| (2 <<< 3)) 2 ∧
    compileAacConf 44100 2 = .ok [0x12, 0x10] ∧
    _compile_aac_header ["96000", "2"] =
      .ok (FlvBody (AudioTag [0x17, 0x80, 0xbb, 0x80, 0x10] 0 audio_data_default 0)) :=
  ⟨by decide, by decide, by decide, by decide, by decide⟩

/-- C10 (code bug on flag-style attributes): `a=name:value` stores
name ↦ value, but a flag-style `a=name` (for example `a=recvonly`) makes
`value.split(':')[1]` raise IndexError instead of storing an empty value;
this is the shared body of the session-level and media-level parsers. -/
theorem sdp_attribute_flag_raises :
    _set_attribute_line [] "control:trackID=1" = .ok [("control", "trackID=1")] ∧
    _set_attribute_line [("control", "trackID=1")] "recvonly" = .error .indexErr :=
  ⟨by decide, by decide⟩

/-- C2 (code bug): `Connection.add_sink` always raises AttributeError, for
every SDP state and sink-table content, because class `Sdp` defines no method
`empty` (sdp.py:211-230) while rtsp.py:374 calls `self._proto.sdp.empty()`;
the sink is never stored and `on_sdp` is never invoked. -/
theorem add_sink_attribute_error (sdpEmptyValue : Bool)
    (sink_table : List ((String × Nat) × Nat)) (reg_key : String × Nat)
    (sink : Nat) :
    add_sink sdpEmptyValue sink_table reg_key sink =
      .error (.attributeErr "Sdp" "empty") := rfl

/-- C1 (code bug): a well-formed first read `GET /rtsp://1.2.3.4/stream
HTTP/1.0` whose upstream address is absent from the registry parses its URL
fine, but `_set_source` raises TypeError at flv.py:164 — the call
`rtsp.Connection(url.address, rtsp.Source(...))` provides 2 positional
arguments to the 3-parameter `Connection.__init__(address, proto, br)` — so
the viewer is answered with the 400 Bad Request branch and nothing is
registered, contrary to the claimed 200/FLV path. -/
theorem set_source_missing_br_argument :
    Url.init "rtsp://1.2.3.4/stream" = .ok ⟨("1.2.3.4", 554), "/stream", []⟩ ∧
    rtspConnectionInitParams.length = 3 ∧
    _set_source ["GET /rtsp://1.2.3.4/stream HTTP/1.0", "", ""] ("viewer", 1) [] =
      .error (.typeErr "Connection.__init__") ∧
    flv_on_first_read "GET /rtsp://1.2.3.4/stream HTTP/1.0\r\n\r\n" ("viewer", 1) [] =
      ("HTTP/1.0 400 Bad Request\r\nWarning: Connection.__init__() missing required positional argument\r\n\r\n",
       []) :=
  ⟨by decide, by decide, by decide, by decide⟩

/-- C5: with every DESCRIBE answered 401, `_set_authentication` resends
DESCRIBE on each of the first five invocations (counter 0..4), never raising,
and raises CredentialsNotAccepted on the sixth, when the counter exceeds 4. -/
theorem rtsp_auth_retry_bound :
    (run401 digest401Header 5 source401).map (·.1) = .ok 5 ∧
    (∀ n, n ≤ 5 → (run401 digest401Header n source401).isOk = true) ∧
    run401 digest401Header 6 source401 =
      .error (.credentialsNotAccepted ["user", "pass"]) ∧
    (_set_authentication source401 digest401Header).map
        (fun p => pyStarts p.2 "DESCRIBE ") = .ok true :=
  ⟨by decide, by decide, by decide, by decide⟩

/-- Witness for `rtsp_auth_retry_bound` at a concrete invocation count. -/
theorem rtsp_auth_retry_bound_witness :
    (run401 digest401Header 4 source401).isOk = true :=
  rtsp_auth_retry_bound.2.1 4 (by decide)

/-- C4 counterexample: `Url('http://1.2.3.4/path')` constructs successfully
(scheme `http`), because the dotted-quad pattern matches and url.py only
checks the scheme in the hostname-fallback branch. -/
theorem url_http_numeric_host_accepted :
    Url.init "http://1.2.3.4/path" = .ok ⟨("1.2.3.4", 554), "/path", []⟩ ∧
    pyStarts "http://1.2.3.4/path" "rtsp" = false :=
  ⟨by decide, by decide⟩

/-- C4 amended: a successfully constructed Url either matched the dotted-quad
numeric-host pattern (scheme unchecked) or came from the hostname fallback
with scheme `rtsp`; the InvalidUrl check fires only outside those cases. -/
theorem url_ok_scheme_or_numeric_host (s : String) (u : Url)
    (h : Url.init s = .ok u) :
    (reSearch urlPattern1 s.toList).isSome = true ∨
    ∃ m, reSearch urlPattern2 s.toList = some m ∧ capGet m 1 = some "rtsp" := by
  unfold Url.init at h
  cases h1 : reSearch urlPattern1 s.toList with
  | some m => simp [h1]
  | none =>
    simp only [h1] at h
    cases h2 : reSearch urlPattern2 s.toList with
    | none =>
      simp only [h2] at h
      exact absurd h (by simp)
    | some m =>
      simp only [h2] at h
      by_cases hp : capGet m 1 = some "rtsp"
      · exact .inr ⟨m, rfl, hp⟩
      · rw [if_pos hp] at h
        exact absurd h (by simp)

/-- Witness for `url_ok_scheme_or_numeric_host` at the concrete accepted
non-rtsp input. -/
theorem url_ok_scheme_or_numeric_host_witness :
    (reSearch urlPattern1 "http://1.2.3.4/path".toList).isSome = true ∨
    ∃ m, reSearch urlPattern2 "http://1.2.3.4/path".toList = some m ∧
      capGet m 1 = some "rtsp" :=
  url_ok_scheme_or_numeric_host "http://1.2.3.4/path"
    ⟨("1.2.3.4", 554), "/path", []⟩ (by decide)

/-- C6 counterexample: for the RFC 2617 canonical inputs the code's
authorization line carries response `670fd8c2df070c60b045671b8b24ff02`, and
the claimed `6629fae49393a05397450978507c4ef1` appears nowhere in it (that
value is the RFC 2617 qop=auth digest, which also hashes nc, cnonce and qop —
inputs this code never uses). -/
theorem digest_rfc2617_value_mismatch :
    (_set_digest_authentication canonicalSource canonicalHeader).map
        (fun s => _get_authorization s "GET") =
      .ok "Authorization: Digest username=\"Mufasa\", realm=\"testrealm@host.com\", nonce=\"dcd98b7102dd2f0e8b11d0f600bfb0c093\", uri=\"/dir/index.html\", algorithm=\"MD5\", response=\"670fd8c2df070c60b045671b8b24ff02\"\r\n" ∧
    hasSubstring "6629fae49393a05397450978507c4ef1"
      "Authorization: Digest username=\"Mufasa\", realm=\"testrealm@host.com\", nonce=\"dcd98b7102dd2f0e8b11d0f600bfb0c093\", uri=\"/dir/index.html\", algorithm=\"MD5\", response=\"670fd8c2df070c60b045671b8b24ff02\"\r\n" = false :=
  ⟨by decide, by decide⟩

/-- C6 amended: the authorization line for a method is the stored Digest
prefix followed by `md5(HA1:nonce:md5(method:url))` in lowercase hex and a
closing quote (plus CRLF), where HA1 = md5(user:realm:pass); for the RFC 2617
canonical inputs the computed response equals
`670fd8c2df070c60b045671b8b24ff02` (not the claim's qop=auth value). -/
theorem digest_response_formula (st : SourceAuth) (method : String)
    (h : st.authorization_digest ≠ "") :
    _get_authorization st method =
      st.authorization_digest ++
        md5Hex (st.ha1 ++ ":" ++ st.nonce ++ ":" ++ md5Hex (method ++ ":" ++ st.url)) ++
        "\"\r\n" ∧
    (_set_digest_authentication canonicalSource canonicalHeader).map
        (fun s => md5Hex (s.ha1 ++ ":" ++ s.nonce ++ ":" ++ md5Hex ("GET:" ++ s.url))) =
      .ok "670fd8c2df070c60b045671b8b24ff02" :=
  ⟨by simp [_get_authorization, h], by decide⟩

/-- Witness for `digest_response_formula` at a concrete digest state. -/
theorem digest_response_formula_witness :
    _get_authorization
        ⟨["Mufasa", "Circle Of Life"], "/dir/index.html", 1, "",
         "Authorization: Digest response=\"",
         "939e7578ed9e3c518a452acee763bce9",
         "dcd98b7102dd2f0e8b11d0f600bfb0c093", 0⟩ "GET" =
      "Authorization: Digest response=\"" ++
        md5Hex ("939e7578ed9e3c518a452acee763bce9" ++ ":" ++
          "dcd98b7102dd2f0e8b11d0f600bfb0c093" ++ ":" ++
          md5Hex ("GET" ++ ":" ++ "/dir/index.html")) ++ "\"\r\n" ∧
    (_set_digest_authentication canonicalSource canonicalHeader).map
        (fun s => md5Hex (s.ha1 ++ ":" ++ s.nonce ++ ":" ++ md5Hex ("GET:" ++ s.url))) =
      .ok "670fd8c2df070c60b045671b8b24ff02" :=
  digest_response_formula
    ⟨["Mufasa", "Circle Of Life"], "/dir/index.html", 1, "",
     "Authorization: Digest response=\"",
     "939e7578ed9e3c518a452acee763bce9",
     "dcd98b7102dd2f0e8b11d0f600bfb0c093", 0⟩ "GET" (by decide)

/-- C3 counterexample: at clock rate 10000 the strictly increasing RTP
timestamps 0, 6, 15, 16 produce the millisecond outputs 0, 0, 2, 1 — the
carry fires on the third call and not on the fourth, so the fourth output is
smaller than the third and the sequence is not non-decreasing. (Exact
rational arithmetic; IEEE doubles give the same four integers.) -/
theorem timestamp_not_monotone :
    (Timestamp.init 10000).run [0, 6, 15, 16] = [0, 0, 2, 1] ∧
    ¬ List.Chain' (· ≤ ·) ([0, 0, 2, 1] : List Int) := by
  constructor
  · norm_num [Timestamp.run, Timestamp.get, Timestamp.init, pyTrunc]
  · norm_num [List.chain'_cons]

theorem timestamp_get_bounds (c : Rat) (hc : 0 < c) (b : Int) (a : Rat)
    (ha0 : 0 ≤ a) (ha1 : a ≤ 1) (t : Int) (hbt : b ≤ t) :
    ∃ r a', Timestamp.get ⟨some b, a, c⟩ t = (r, ⟨some b, a', c⟩) ∧
      ⌊((t : Rat) - (b : Rat)) / c⌋ ≤ r ∧
      r ≤ ⌊((t : Rat) - (b : Rat)) / c⌋ + 1 ∧ 0 ≤ a' ∧ a' ≤ 1 := by
  set x : Rat := ((t : Rat) - (b : Rat)) / c with hxdef
  have hx0 : 0 ≤ x := by
    apply div_nonneg _ hc.le
    have : (b : Rat) ≤ (t : Rat) := by exact_mod_cast hbt
    linarith
  have htr : pyTrunc x = ⌊x⌋ := if_pos hx0
  have hfr0 : 0 ≤ x - (⌊x⌋ : Rat) := sub_nonneg.mpr (Int.floor_le x)
  have hfr1 : x - (⌊x⌋ : Rat) < 1 := by
    have := Int.lt_floor_add_one x
    linarith
  by_cases hif : 1 < a + (x - ((⌊x⌋ : Int) : Rat))
  · refine ⟨⌊x⌋ + 1, a + (x - ((⌊x⌋ : Int) : Rat)) - 1, ?_, by omega, by omega,
      by linarith, by linarith⟩
    simp only [Timestamp.get, Option.getD_some, ← hxdef, htr, hif, if_true]
  · refine ⟨⌊x⌋, a + (x - ((⌊x⌋ : Int) : Rat)), ?_, by omega, by omega,
      by linarith, by linarith⟩
    simp only [Timestamp.get, Option.getD_some, ← hxdef, htr, hif, if_false]

theorem timestamp_run_chain (c : Rat) (hc : 0 < c) :
    ∀ (ts : List Int) (b : Int) (a : Rat), 0 ≤ a → a ≤ 1 →
      ts.Chain' (· ≤ ·) → (∀ t ∈ ts, b ≤ t) →
      (Timestamp.run ⟨some b, a, c⟩ ts).Chain' (fun u v => u - 1 ≤ v)
  | [], _, _, _, _, _, _ => by simp [Timestamp.run]
  | [t], b, a, ha0, ha1, _, hb => by
    obtain ⟨r, a', heq, _, _, _, _⟩ :=
      timestamp_get_bounds c hc b a ha0 ha1 t (hb t (by simp))
    simp [Timestamp.run, heq]
  | t₁ :: t₂ :: rest, b, a, ha0, ha1, hch, hb => by
    obtain ⟨r₁, a₁, heq₁, _, hhi₁, ha₁0, ha₁1⟩ :=
      timestamp_get_bounds c hc b a ha0 ha1 t₁ (hb t₁ (by simp))
    obtain ⟨r₂, a₂, heq₂, hlo₂, _, _, _⟩ :=
      timestamp_get_bounds c hc b a₁ ha₁0 ha₁1 t₂ (hb t₂ (by simp))
    have htail := timestamp_run_chain c hc (t₂ :: rest) b a₁ ha₁0 ha₁1
      hch.tail (fun t ht => hb t (List.mem_cons_of_mem _ ht))
    have hrun : Timestamp.run ⟨some b, a, c⟩ (t₁ :: t₂ :: rest) =
        r₁ :: Timestamp.run ⟨some b, a₁, c⟩ (t₂ :: rest) := by
      simp [Timestamp.run, heq₁]
    have hrun₂ : Timestamp.run ⟨some b, a₁, c⟩ (t₂ :: rest) =
        r₂ :: Timestamp.run ⟨some b, a₂, c⟩ rest := by
      simp [Timestamp.run, heq₂]
    rw [hrun, hrun₂]
    rw [hrun₂] at htail
    refine List.chain'_cons.mpr ⟨?_, htail⟩
    have ht12 : t₁ ≤ t₂ := (List.chain'_cons.mp hch).1
    have hx12 : ⌊((t₁ : Rat) - (b : Rat)) / c⌋ ≤ ⌊((t₂ : Rat) - (b : Rat)) / c⌋ := by
      apply Int.floor_le_floor
      refine (div_le_div_iff_of_pos_right hc).mpr ?_
      have : (t₁ : Rat) ≤ (t₂ : Rat) := by exact_mod_cast ht12
      linarith
    omega

theorem timestamp_run_starts_zero (R : Rat) (t : Int) (ts : List Int) :
    ∃ out, (Timestamp.init R).run (t :: ts) = 0 :: out := by
  refine ⟨Timestamp.run ((Timestamp.init R).get t).2 ts, ?_⟩
  norm_num [Timestamp.run, Timestamp.get, Timestamp.init, pyTrunc]

/-- C3 amended: for any clock rate R > 0 and strictly increasing RTP
timestamps, the returned sequence starts at 0, and although it is not always
non-decreasing (see the counterexample), an output never drops more than 1 ms
below its predecessor: each next value is at least the previous minus one. -/
theorem timestamp_start_zero_bounded_decrease (R : Rat) (hR : 0 < R)
    (t : Int) (ts : List Int) (hch : (t :: ts).Chain' (· < ·)) :
    (∃ out, (Timestamp.init R).run (t :: ts) = 0 :: out) ∧
    ((Timestamp.init R).run (t :: ts)).Chain' (fun u v => u - 1 ≤ v) := by
  have hc : 0 < R / 1000 := by positivity
  refine ⟨timestamp_run_starts_zero R t ts, ?_⟩
  have hget : (Timestamp.init R).get t = (0, ⟨some t, 0, R / 1000⟩) := by
    norm_num [Timestamp.get, Timestamp.init, pyTrunc]
  have hrun : (Timestamp.init R).run (t :: ts) =
      0 :: Timestamp.run ⟨some t, 0, R / 1000⟩ ts := by
    simp [Timestamp.run, hget]
  rw [hrun]
  have hpw : ∀ u ∈ ts, t ≤ u := by
    have hp := (List.chain'_iff_pairwise.mp hch)
    intro u hu
    exact ((List.pairwise_cons.mp hp).1 u hu).le
  have hchts : ts.Chain' (· ≤ ·) := hch.tail.imp (fun _ _ h => le_of_lt h)
  have htail := timestamp_run_chain (R / 1000) hc ts t 0 le_rfl zero_le_one hchts hpw
  cases hts : ts with
  | nil => simp [Timestamp.run]
  | cons t₂ rest =>
    obtain ⟨r₂, a₂, heq₂, hlo₂, _, _, _⟩ :=
      timestamp_get_bounds (R / 1000) hc t 0 le_rfl zero_le_one t₂
        (hpw t₂ (by simp [hts]))
    have hrun₂ : Timestamp.run ⟨some t, 0, R / 1000⟩ (t₂ :: rest) =
        r₂ :: Timestamp.run ⟨some t, a₂, R / 1000⟩ rest := by
      simp [Timestamp.run, heq₂]
    rw [hts] at htail
    rw [hrun₂] at htail ⊢
    refine List.chain'_cons.mpr ⟨?_, htail⟩
    have hx0 : (0 : Int) ≤ ⌊((t₂ : Rat) - (t : Rat)) / (R / 1000)⌋ := by
      apply Int.floor_nonneg.mpr
      apply div_nonneg _ hc.le
      have : (t : Rat) ≤ (t₂ : Rat) := by exact_mod_cast hpw t₂ (by simp [hts])
      linarith
    omega

/-- Witness for `timestamp_start_zero_bounded_decrease` at the
counterexample's inputs. -/
theorem timestamp_start_zero_bounded_decrease_witness :
    (∃ out, (Timestamp.init 10000).run (0 :: [6, 15, 16]) = 0 :: out) ∧
    ((Timestamp.init 10000).run (0 :: [6, 15, 16])).Chain' (fun u v => u - 1 ≤ v) :=
  timestamp_start_zero_bounded_decrease 10000 (by norm_num) 0 [6, 15, 16]
    (by norm_num [List.chain'_cons])

theorem fuIndicatorBits : ∀ f < 2, ∀ nri < 4,
    ((f <<< 7) ||| (nri <<< 5) ||| 28) &&& 0x1f = 28 ∧
    ((f <<< 7) ||| (nri <<< 5) ||| 28) >>> 7 = f ∧
    (((f <<< 7) ||| (nri <<< 5) ||| 28) >>> 5) &&& 3 = nri := by decide

theorem fuHeaderBits : ∀ s < 2, ∀ e < 2, ∀ r < 2, ∀ t < 32,
    ((s <<< 7) ||| (e <<< 6) ||| (r <<< 5) ||| t) >>> 7 = s ∧
    (((s <<< 7) ||| (e <<< 6) ||| (r <<< 5) ||| t) >>> 6) &&& 1 = e ∧
    ((s <<< 7) ||| (e <<< 6) ||| (r <<< 5) ||| t) &&& 0x1f = t := by decide

theorem fuSynthBits : ∀ f < 2, ∀ nri < 4, ∀ t < 32,
    toBytesBE ((f <<< 7) ||| (nri <<< 5) ||| t) 1 =
      [(f <<< 7) ||| (nri <<< 5) ||| t] := by decide

theorem fuPacket_length (f nri s e r t : Nat) (payload : List Nat) :
    (fuPacket f nri s e r t payload).length = payload.length + 18 := by
  simp [fuPacket, rtpHeaderZero]

theorem fuPacket_bytes (f nri s e r t : Nat) (payload rest : List Nat) :
    fromBytesBE (pySlice (fuPacket f nri s e r t payload ++ rest) 2 4)
      = payload.length + 14 ∧
    pyAt (fuPacket f nri s e r t payload ++ rest) 1 = 0 ∧
    pyAt (fuPacket f nri s e r t payload ++ rest) 16
      = (f <<< 7) ||| (nri <<< 5) ||| 28 ∧
    pyAt (fuPacket f nri s e r t payload ++ rest) 17
      = (s <<< 7) ||| (e <<< 6) ||| (r <<< 5) ||| t ∧
    fromBytesBE (pySlice (fuPacket f nri s e r t payload ++ rest) 8 12) = 0 ∧
    pySlice (fuPacket f nri s e r t payload ++ rest) 18 (payload.length + 14 + 4)
      = payload ∧
    (fuPacket f nri s e r t payload ++ rest).drop (payload.length + 14 + 4) = rest := by
  have hlen : payload.length + 14 + 4 = (fuPacket f nri s e r t payload).length := by
    rw [fuPacket_length]
  refine ⟨?_, ?_, ?_, ?_, ?_, ?_, ?_⟩
  · show fromBytesBE ((((fuPacket f nri s e r t payload ++ rest).take 4).drop 2)) = _
    simp only [fuPacket, List.cons_append, List.take_succ_cons, List.take_zero,
      List.drop_succ_cons, List.drop_zero, fromBytesBE, List.foldl]
    omega
  · simp [fuPacket, pyAt]
  · simp [fuPacket, rtpHeaderZero, pyAt]
  · simp [fuPacket, rtpHeaderZero, pyAt]
  · show fromBytesBE ((((fuPacket f nri s e r t payload ++ rest).take 12).drop 8)) = _
    simp [fuPacket, rtpHeaderZero, fromBytesBE]
  · show (((fuPacket f nri s e r t payload ++ rest).take (payload.length + 14 + 4)).drop 18) = _
    rw [hlen, List.take_left]
    simp [fuPacket, rtpHeaderZero]
  · rw [hlen, List.drop_left]

theorem rtpLoop_fu_mid (f nri r t : Nat) (hf : f < 2) (hnri : nri < 4)
    (hr : r < 2) (ht : t < 32) (payload rest frame : List Nat)
    (hrest : 4 < rest.length) :
    rtpLoop (fuPacket f nri 0 0 r t payload ++ rest) frame =
      rtpLoop rest (frame ++ payload) := by
  obtain ⟨hsz, hch, h16, h17, hts, hsl, hdr⟩ := fuPacket_bytes f nri 0 0 r t payload rest
  obtain ⟨hi1, hi2, hi3⟩ := fuIndicatorBits f hf nri hnri
  obtain ⟨hh1, hh2, hh3⟩ := fuHeaderBits 0 (by omega) 0 (by omega) r hr t ht
  have hcond : fromBytesBE (pySlice (fuPacket f nri 0 0 r t payload ++ rest) 2 4) + 8 <
      (fuPacket f nri 0 0 r t payload ++ rest).length := by
    rw [hsz]; simp [fuPacket_length]; omega
  conv_lhs => rw [rtpLoop.eq_def]
  rw [dif_pos hcond]
  simp only [hsz, hch, h16, h17, hts, hsl, hdr, hi1, hi2, hi3, hh1, hh2, hh3]
  simp

theorem rtpLoop_fu_start (f nri r t : Nat) (hf : f < 2) (hnri : nri < 4)
    (hr : r < 2) (ht : t < 32) (payload rest frame : List Nat)
    (hrest : 4 < rest.length) :
    rtpLoop (fuPacket f nri 1 0 r t payload ++ rest) frame =
      rtpLoop rest (((f <<< 7) ||| (nri <<< 5) ||| t) :: payload) := by
  obtain ⟨hsz, hch, h16, h17, hts, hsl, hdr⟩ := fuPacket_bytes f nri 1 0 r t payload rest
  obtain ⟨hi1, hi2, hi3⟩ := fuIndicatorBits f hf nri hnri
  obtain ⟨hh1, hh2, hh3⟩ := fuHeaderBits 1 (by omega) 0 (by omega) r hr t ht
  have hsynth := fuSynthBits f hf nri hnri t ht
  have hcond : fromBytesBE (pySlice (fuPacket f nri 1 0 r t payload ++ rest) 2 4) + 8 <
      (fuPacket f nri 1 0 r t payload ++ rest).length := by
    rw [hsz]; simp [fuPacket_length]; omega
  conv_lhs => rw [rtpLoop.eq_def]
  rw [dif_pos hcond]
  simp only [hsz, hch, h16, h17, hts, hsl, hdr, hi1, hi2, hi3, hh1, hh2, hh3, hsynth]
  simp

theorem rtpLoop_fu_last (f nri r t : Nat) (hf : f < 2) (hnri : nri < 4)
    (hr : r < 2) (ht : t < 32) (payload rest frame : List Nat)
    (hrest : 4 < rest.length) :
    rtpLoop (fuPacket f nri 0 1 r t payload ++ rest) frame =
      (MediaEvent.video (frame ++ payload) 0 :: (rtpLoop rest (frame ++ payload)).1,
       (rtpLoop rest (frame ++ payload)).2) := by
  obtain ⟨hsz, hch, h16, h17, hts, hsl, hdr⟩ := fuPacket_bytes f nri 0 1 r t payload rest
  obtain ⟨hi1, hi2, hi3⟩ := fuIndicatorBits f hf nri hnri
  obtain ⟨hh1, hh2, hh3⟩ := fuHeaderBits 0 (by omega) 1 (by omega) r hr t ht
  have hcond : fromBytesBE (pySlice (fuPacket f nri 0 1 r t payload ++ rest) 2 4) + 8 <
      (fuPacket f nri 0 1 r t payload ++ rest).length := by
    rw [hsz]; simp [fuPacket_length]; omega
  conv_lhs => rw [rtpLoop.eq_def]
  rw [dif_pos hcond]
  simp only [hsz, hch, h16, h17, hts, hsl, hdr, hi1, hi2, hi3, hh1, hh2, hh3]
  simp

theorem rtpLoop_streamTail (frame : List Nat) :
    rtpLoop streamTail frame = ([], streamTail, frame) := by
  conv_lhs => rw [rtpLoop.eq_def]
  rw [dif_neg]
  decide

theorem rtpLoop_fu_mids (f nri r t : Nat) (hf : f < 2) (hnri : nri < 4)
    (hr : r < 2) (ht : t < 32) :
    ∀ (mids : List (List Nat)) (rest frame : List Nat), 4 < rest.length →
      rtpLoop ((mids.map (fuPacket f nri 0 0 r t)).flatten ++ rest) frame =
        rtpLoop rest (frame ++ mids.flatten)
  | [], rest, frame, _ => by simp
  | p :: ms, rest, frame, hrest => by
    have hlen : 4 < ((ms.map (fuPacket f nri 0 0 r t)).flatten ++ rest).length := by
      simp [List.length_append]; omega
    calc rtpLoop (((p :: ms).map (fuPacket f nri 0 0 r t)).flatten ++ rest) frame
        = rtpLoop (fuPacket f nri 0 0 r t p ++
            ((ms.map (fuPacket f nri 0 0 r t)).flatten ++ rest)) frame := by
          simp [List.append_assoc]
      _ = rtpLoop ((ms.map (fuPacket f nri 0 0 r t)).flatten ++ rest) (frame ++ p) :=
          rtpLoop_fu_mid f nri r t hf hnri hr ht p _ frame hlen
      _ = rtpLoop rest ((frame ++ p) ++ ms.flatten) :=
          rtpLoop_fu_mids f nri r t hf hnri hr ht ms rest (frame ++ p) hrest
      _ = rtpLoop rest (frame ++ (p :: ms).flatten) := by simp [List.append_assoc]

/-- C7: an H.264 frame split into in-order FU-A fragments (NAL type 28) on
the video channel, s=1 on the first, e=1 on the last, and a common
(f, nri, fu-type), is reassembled into exactly one NAL handed upward, whose
first byte is the synthesized header `(f<<7)|(nri<<5)|type` and whose
remaining bytes are the concatenation of the fragments' payload bytes
`[18:size+4)` in arrival order; the same stream without the final (e=1)
fragment emits nothing. -/
theorem fua_reassembly (f nri r t : Nat) (hf : f < 2) (hnri : nri < 4)
    (hr : r < 2) (ht : t < 32) (pfirst plast : List Nat) (mids : List (List Nat))
    (h1 : pfirst.length + 14 < 65536) (h2 : plast.length + 14 < 65536)
    (hm : ∀ p ∈ mids, p.length + 14 < 65536) :
    (_on_rtp_data ⟨[], []⟩ (fuStream f nri r t pfirst mids plast)).1 =
      [MediaEvent.video (fuNal f nri t pfirst mids plast) 0] ∧
    (_on_rtp_data ⟨[], []⟩ (fuPacket f nri 1 0 r t pfirst ++
        ((mids.map (fuPacket f nri 0 0 r t)).flatten ++ streamTail))).1 = [] := by
  have hentry : ∀ d : List Nat, pyAt d 0 = 0x24 →
      (_on_rtp_data ⟨[], []⟩ d).1 = (rtpLoop d []).1 := by
    intro d hd
    simp [_on_rtp_data, hd]
  have hrest1 : 4 < ((mids.map (fuPacket f nri 0 0 r t)).flatten ++
      (fuPacket f nri 0 1 r t plast ++ streamTail)).length := by
    simp [List.length_append, fuPacket_length, streamTail]; omega
  have hrest2 : 4 < (fuPacket f nri 0 1 r t plast ++ streamTail).length := by
    simp [List.length_append, fuPacket_length, streamTail]
  have hrest3 : 4 < (streamTail : List Nat).length := by decide
  constructor
  · rw [hentry _ (by simp [fuStream, fuPacket, pyAt])]
    rw [fuStream]
    rw [rtpLoop_fu_start f nri r t hf hnri hr ht pfirst _ [] hrest1]
    rw [rtpLoop_fu_mids f nri r t hf hnri hr ht mids _ _ hrest2]
    rw [rtpLoop_fu_last f nri r t hf hnri hr ht plast _ _ hrest3]
    simp [rtpLoop_streamTail, fuNal]
  · rw [hentry _ (by simp [fuPacket, pyAt])]
    rw [rtpLoop_fu_start f nri r t hf hnri hr ht pfirst _ [] (by
      simp [List.length_append, fuPacket_length, streamTail])]
    rw [rtpLoop_fu_mids f nri r t hf hnri hr ht mids _ _ hrest3]
    rw [rtpLoop_streamTail]

/-- Witness for `fua_reassembly`: an IDR (type 5) split into four fragments. -/
theorem fua_reassembly_witness :
    (_on_rtp_data ⟨[], []⟩ (fuStream 0 3 0 5 [1, 2] [[3], [4, 5]] [6])).1 =
      [MediaEvent.video (fuNal 0 3 5 [1, 2] [[3], [4, 5]] [6]) 0] ∧
    (_on_rtp_data ⟨[], []⟩ (fuPacket 0 3 1 0 0 5 [1, 2] ++
        (([[3], [4, 5]].map (fuPacket 0 3 0 0 0 5)).flatten ++ streamTail))).1 = [] :=
  fua_reassembly 0 3 0 5 (by decide) (by decide) (by decide) (by decide)
    [1, 2] [6] [[3], [4, 5]] (by decide) (by decide) (by decide)

/-- Sanity anchor for the MD5 embedding: the RFC 1321 digest of the empty
message. -/
theorem md5Hex_rfc1321_empty : md5Hex "" = "d41d8cd98f00b204e9800998ecf8427e" := by
  decide
